import Mathlib

/-!
# go-udev command line front end (`main.go`)

A shallow embedding of `main.go`: the rule-file loader `getOptionnalMatcher`,
the mode selection in `main`, and the two consuming loops `info` and `monitor`.

Effects are made explicit.  A program is a value of `Prog α`: the list of
observable actions it performed (`Act`) together with how it ended (`Res`):
it returned a value, the process exited with a status, or it is blocked in a
`select` because the supplied finite input is used up.  Everything the
program reads from outside (flags, the file system, the JSON decoder, the
netlink socket, the channels) is supplied by `Env` and by the input lists of
the loops.
-/

namespace GoUdev

/-! ## Data model -/

/-- Go `error` values that occur in `main.go`. -/
inductive GoError
  -- an error returned by the operating system (e.g. by `ioutil.ReadFile`)
  | os (msg : String)
  -- `json.SyntaxError` with a fixed message, at a byte offset
  | synErr (msg : String) (offset : Nat)
  -- `json.SyntaxError` "invalid character c context", at a byte offset
  | invalidChar (c : Nat) (context : String) (offset : Nat)
  -- any other error, e.g. `json.UnmarshalTypeError` or one sent on `errors`
  | other (msg : String)
  -- `fmt.Errorf(msg ++ "%w", inner)` with a non-nil `inner`
  | wrap (msg : String) (inner : GoError)
  -- `fmt.Errorf(msg ++ "%w", nil)`
  | wrapNil (msg : String)
  deriving DecidableEq, Repr

/-- The target of a rule. -/
inductive Target
  | action
  | env
  deriving DecidableEq, Repr

/-- Modelled from the spec: one entry of `netlink.RuleDefinitions`, whose
declaration is not part of `main.go`; spec section 3 gives a rule a target, a
key and a pattern. -/
structure Rule where
  target : Target
  key : String
  pattern : String
  deriving DecidableEq, Repr

/-- Modelled from the spec: `netlink.RuleDefinitions`, an ordered sequence of
rules (spec section 3, "RuleSet"). -/
abbrev RuleDefinitions := List Rule

/-- The interface value `netlink.Matcher` as `main.go` builds it: the nil
interface, or a pointer to a `RuleDefinitions`. -/
inductive Matcher
  | nil
  | rules (r : RuleDefinitions)
  deriving DecidableEq, Repr

/-- Modelled from the spec: `crawler.Device`, of which `info` reads the fields
`KObj` and `Env`. -/
structure Device where
  KObj : String
  Env : List (String × String)
  deriving DecidableEq, Repr

/-- Modelled from the spec: `netlink.UEvent` (spec section 3, "DeviceEvent"). -/
structure UEvent where
  Action : String
  KObj : String
  Env : List (String × String)
  deriving DecidableEq, Repr

/-- Types with a Go zero value, the value a receive on a closed channel yields. -/
class Zero0 (α : Type) where
  zero : α

instance : Zero0 Device := ⟨⟨"", []⟩⟩

instance : Zero0 UEvent := ⟨⟨"", "", []⟩⟩

/-- An argument of `log.Println` / `log.Fatalln`. -/
inductive LogArg
  | str (s : String)
  | err (e : GoError)
  | env (e : List (String × String))
  | pretty (u : UEvent)
  deriving DecidableEq, Repr

/-- Observable actions of a run, in program order. -/
inductive Act
  -- `log.Println(args...)`
  | println (args : List LogArg)
  -- `log.Fatalln(args...)`: prints, then `os.Exit(1)`
  | fatalln (args : List LogArg)
  -- `ioutil.ReadFile(path)`
  | readFile (path : String)
  -- `json.Unmarshal(data, &rules)`
  | unmarshal (data : List Nat)
  -- entry of `monitor(matcher)`
  | callMonitor (m : Matcher)
  -- entry of `info(matcher)`
  | callInfo (m : Matcher)
  -- `conn.Connect(netlink.UdevEvent)`
  | connect
  -- `conn.Close()`
  | connClose
  -- `conn.Monitor(ctx.Done(), errors, matcher)`
  | connMonitor (m : Matcher)
  -- `crawler.ExistingDevices(ctx.Done(), errors, matcher)`
  | existingDevices (m : Matcher)
  -- `signal.Notify(signals, SIGINT, SIGTERM, SIGQUIT)`
  | signalNotify
  -- a value was received from the `signals` channel (`<-signals`)
  | recvSignal
  -- `cancel()` of the context whose `Done()` was handed to the component
  | cancel
  -- `os.Exit(code)`
  | osExit (code : Nat)
  deriving DecidableEq, Repr

/-- How a program stops without returning: the process exited, or the
program is blocked in a `select` with no input left. -/
inductive Halt
  | exited (code : Nat)
  | blocked
  deriving DecidableEq, Repr

/-- The end of a program: it returned `a`, or it halted. -/
inductive Res (α : Type)
  | done (a : α)
  | halt (h : Halt)
  deriving DecidableEq, Repr

/-- An effectful program, run to its end: the actions performed and the end. -/
structure Prog (α : Type) where
  trace : List Act
  res : Res α
  deriving DecidableEq, Repr

/-- Return without any action. -/
def Prog.pure {α : Type} (a : α) : Prog α := ⟨[], .done a⟩

/-- Sequencing: the second program runs only when the first returned. -/
def Prog.bind {α β : Type} (p : Prog α) (f : α → Prog β) : Prog β :=
  match p.res with
  | .done a => ⟨p.trace ++ (f a).trace, (f a).res⟩
  | .halt h => ⟨p.trace, .halt h⟩

instance : Monad Prog where
  pure := Prog.pure
  bind := Prog.bind

/-- Perform one action and go on. -/
def emit (a : Act) : Prog Unit := ⟨[a], .done ()⟩

/-- The call `log.Println(args...)`. -/
def println (args : List LogArg) : Prog Unit := emit (.println args)

/-- The call `log.Fatalln(args...)`: print, then exit with status 1. -/
def fatalln (args : List LogArg) : Prog Unit := ⟨[.fatalln args], .halt (.exited 1)⟩

/-- The call `os.Exit(code)`. -/
def osExit (code : Nat) : Prog Unit := ⟨[.osExit code], .halt (.exited code)⟩

/-- The call `cancel()`. -/
def cancel : Prog Unit := emit .cancel

/-- A `select` with no input left: the goroutine stays blocked. -/
def blocked {α : Type} : Prog α := ⟨[], .halt .blocked⟩

/-- Registers `defer d` at this point of a function body: `d` runs when
the rest of the body returns, and does not run when the process exits
(`os.Exit` runs no deferred call) or the body never returns. -/
def withDefer {α : Type} (d : Prog Unit) (body : Prog α) : Prog α :=
  match body.res with
  | .done a => ⟨body.trace ++ d.trace, match d.res with | .done _ => .done a | .halt h => .halt h⟩
  | .halt h => ⟨body.trace, .halt h⟩

/-- What the program is run against: the parsed flags and the results of
the library calls whose code is outside `main.go`. -/
structure Env where
  -- the pointer `filePath` (`none` is the nil pointer) and the `-file` value
  filePath : Option String
  -- the value of `*monitorMode` after `flag.Parse()`
  monitorMode : Bool
  -- the value of `*infoMode` after `flag.Parse()`
  infoMode : Bool
  -- the string `os.Args[0]`
  arg0 : String
  -- result of `ioutil.ReadFile(path)`: the slice (`none` is a nil slice) and the error
  readFile : String → Option (List Nat) × Option GoError
  -- result of decoding syntactically valid JSON into a `RuleDefinitions`
  decode : List Nat → RuleDefinitions × Option GoError
  -- result of `conn.Connect(netlink.UdevEvent)`
  connectErr : Option GoError

/-! ## `encoding/json`: the validity scan that `json.Unmarshal` runs first -/

/-- The step functions of the JSON scanner. -/
inductive ScanStep
  | stateBeginValueOrEmpty | stateBeginValue | stateBeginStringOrEmpty | stateBeginString
  | stateEndValue | stateEndTop
  | stateInString | stateInStringEsc | stateInStringEscU | stateInStringEscU1
  | stateInStringEscU12 | stateInStringEscU123
  | stateNeg | state1 | state0 | stateDot | stateDot0 | stateE | stateESign | stateE0
  | stateT | stateTr | stateTru | stateF | stateFa | stateFal | stateFals
  | stateN | stateNu | stateNul
  | stateError
  deriving DecidableEq, Repr

/-- The JSON scanner state. -/
structure Scanner where
  step : ScanStep
  endTop : Bool
  parseState : List Nat
  err : Option GoError
  bytes : Nat
  deriving DecidableEq, Repr

/-- Scanner return code `scanContinue`. -/
def scanContinue : Nat := 0
/-- Scanner return code `scanBeginLiteral`. -/
def scanBeginLiteral : Nat := 1
/-- Scanner return code `scanBeginObject`. -/
def scanBeginObject : Nat := 2
/-- Scanner return code `scanObjectKey`. -/
def scanObjectKey : Nat := 3
/-- Scanner return code `scanObjectValue`. -/
def scanObjectValue : Nat := 4
/-- Scanner return code `scanEndObject`. -/
def scanEndObject : Nat := 5
/-- Scanner return code `scanBeginArray`. -/
def scanBeginArray : Nat := 6
/-- Scanner return code `scanArrayValue`. -/
def scanArrayValue : Nat := 7
/-- Scanner return code `scanEndArray`. -/
def scanEndArray : Nat := 8
/-- Scanner return code `scanSkipSpace`. -/
def scanSkipSpace : Nat := 9
/-- Scanner return code `scanEnd`. -/
def scanEnd : Nat := 10
/-- Scanner return code `scanError`. -/
def scanError : Nat := 11

/-- Parse state `parseObjectKey`. -/
def parseObjectKey : Nat := 0
/-- Parse state `parseObjectValue`. -/
def parseObjectValue : Nat := 1
/-- Parse state `parseArrayValue`. -/
def parseArrayValue : Nat := 2

/-- The nesting limit of the scanner. -/
def maxNestingDepth : Nat := 10000

/-- The initial scanner (`scanner.reset`). -/
def Scanner.reset : Scanner :=
  { step := .stateBeginValue, endTop := false, parseState := [], err := none, bytes := 0 }

/-- The method `scanner.error`: record a syntax error and stop scanning. -/
def Scanner.error (s : Scanner) (c : Nat) (context : String) : Scanner × Nat :=
  ({ s with step := .stateError, err := some (.invalidChar c context s.bytes) }, scanError)

/-- The method `scanner.pushParseState`. -/
def Scanner.pushParseState (s : Scanner) (c : Nat) (newParseState : Nat) (successState : Nat) :
    Scanner × Nat :=
  let s1 := { s with parseState := s.parseState ++ [newParseState] }
  if s1.parseState.length ≤ maxNestingDepth then (s1, successState)
  else s1.error c "exceeded max depth"

/-- The method `scanner.popParseState`. -/
def Scanner.popParseState (s : Scanner) : Scanner :=
  let n := s.parseState.length - 1
  let s1 := { s with parseState := s.parseState.take n }
  if n = 0 then { s1 with step := .stateEndTop, endTop := true }
  else { s1 with step := .stateEndValue }

/-- Overwrites the top of the parse stack (`s.parseState[n-1] = v`). -/
def Scanner.setTop (s : Scanner) (v : Nat) : Scanner :=
  { s with parseState := s.parseState.take (s.parseState.length - 1) ++ [v] }

/-- The function `isSpace`: space, tab, carriage return, line feed. -/
def isSpace (c : Nat) : Bool := c ≤ 32 && (c = 32 || c = 9 || c = 13 || c = 10)

/-- The function `stateEndTop`. -/
def stateEndTop (s : Scanner) (c : Nat) : Scanner × Nat :=
  if !isSpace c then ((s.error c "after top-level value").1, scanEnd) else (s, scanEnd)

/-- The function `stateEndValue`. -/
def stateEndValue (s : Scanner) (c : Nat) : Scanner × Nat :=
  let n := s.parseState.length
  if n = 0 then stateEndTop { s with step := .stateEndTop, endTop := true } c
  else if isSpace c then ({ s with step := .stateEndValue }, scanSkipSpace)
  else
    let ps := s.parseState.getD (n - 1) 0
    if ps = parseObjectKey then
      if c = 58 then ({ s.setTop parseObjectValue with step := .stateBeginValue }, scanObjectKey)
      else s.error c "after object key"
    else if ps = parseObjectValue then
      if c = 44 then ({ s.setTop parseObjectKey with step := .stateBeginString }, scanObjectValue)
      else if c = 125 then (s.popParseState, scanEndObject)
      else s.error c "after object key:value pair"
    else if ps = parseArrayValue then
      if c = 44 then ({ s with step := .stateBeginValue }, scanArrayValue)
      else if c = 93 then (s.popParseState, scanEndArray)
      else s.error c "after array element"
    else s.error c ""

/-- The function `stateBeginValue`. -/
def stateBeginValue (s : Scanner) (c : Nat) : Scanner × Nat :=
  if isSpace c then (s, scanSkipSpace)
  else if c = 123 then
    Scanner.pushParseState { s with step := .stateBeginStringOrEmpty } c parseObjectKey scanBeginObject
  else if c = 91 then
    Scanner.pushParseState { s with step := .stateBeginValueOrEmpty } c parseArrayValue scanBeginArray
  else if c = 34 then ({ s with step := .stateInString }, scanBeginLiteral)
  else if c = 45 then ({ s with step := .stateNeg }, scanBeginLiteral)
  else if c = 48 then ({ s with step := .state0 }, scanBeginLiteral)
  else if c = 116 then ({ s with step := .stateT }, scanBeginLiteral)
  else if c = 102 then ({ s with step := .stateF }, scanBeginLiteral)
  else if c = 110 then ({ s with step := .stateN }, scanBeginLiteral)
  else if 49 ≤ c ∧ c ≤ 57 then ({ s with step := .state1 }, scanBeginLiteral)
  else s.error c "looking for beginning of value"

/-- The function `stateBeginValueOrEmpty`. -/
def stateBeginValueOrEmpty (s : Scanner) (c : Nat) : Scanner × Nat :=
  if isSpace c then (s, scanSkipSpace)
  else if c = 93 then stateEndValue s c
  else stateBeginValue s c

/-- The function `stateBeginString`. -/
def stateBeginString (s : Scanner) (c : Nat) : Scanner × Nat :=
  if isSpace c then (s, scanSkipSpace)
  else if c = 34 then ({ s with step := .stateInString }, scanBeginLiteral)
  else s.error c "looking for beginning of object key string"

/-- The function `stateBeginStringOrEmpty`. -/
def stateBeginStringOrEmpty (s : Scanner) (c : Nat) : Scanner × Nat :=
  if isSpace c then (s, scanSkipSpace)
  else if c = 125 then stateEndValue (s.setTop parseObjectValue) c
  else stateBeginString s c

/-- The function `stateInString`. -/
def stateInString (s : Scanner) (c : Nat) : Scanner × Nat :=
  if c = 34 then ({ s with step := .stateEndValue }, scanContinue)
  else if c = 92 then ({ s with step := .stateInStringEsc }, scanContinue)
  else if c < 32 then s.error c "in string literal"
  else (s, scanContinue)

/-- The function `stateInStringEsc`. -/
def stateInStringEsc (s : Scanner) (c : Nat) : Scanner × Nat :=
  if c = 98 ∨ c = 102 ∨ c = 110 ∨ c = 114 ∨ c = 116 ∨ c = 92 ∨ c = 47 ∨ c = 34 then
    ({ s with step := .stateInString }, scanContinue)
  else if c = 117 then ({ s with step := .stateInStringEscU }, scanContinue)
  else s.error c "in string escape code"

/-- The hexadecimal digit test of the `\u` escape states. -/
def isHex (c : Nat) : Bool :=
  (48 ≤ c && c ≤ 57) || (97 ≤ c && c ≤ 102) || (65 ≤ c && c ≤ 70)

/-- The functions `stateInStringEscU`, `...U1`, `...U12`, `...U123`: one
hexadecimal digit each, going on in state `next`. -/
def stateInStringEscUn (next : ScanStep) (s : Scanner) (c : Nat) : Scanner × Nat :=
  if isHex c then ({ s with step := next }, scanContinue)
  else s.error c "in \\u hexadecimal character escape"

/-- The function `stateNeg`. -/
def stateNeg (s : Scanner) (c : Nat) : Scanner × Nat :=
  if c = 48 then ({ s with step := .state0 }, scanContinue)
  else if 49 ≤ c ∧ c ≤ 57 then ({ s with step := .state1 }, scanContinue)
  else s.error c "in numeric literal"

/-- The function `state0`. -/
def state0 (s : Scanner) (c : Nat) : Scanner × Nat :=
  if c = 46 then ({ s with step := .stateDot }, scanContinue)
  else if c = 101 ∨ c = 69 then ({ s with step := .stateE }, scanContinue)
  else stateEndValue s c

/-- The function `state1`. -/
def state1 (s : Scanner) (c : Nat) : Scanner × Nat :=
  if 48 ≤ c ∧ c ≤ 57 then ({ s with step := .state1 }, scanContinue)
  else state0 s c

/-- The function `stateDot`. -/
def stateDot (s : Scanner) (c : Nat) : Scanner × Nat :=
  if 48 ≤ c ∧ c ≤ 57 then ({ s with step := .stateDot0 }, scanContinue)
  else s.error c "after decimal point in numeric literal"

/-- The function `stateDot0`. -/
def stateDot0 (s : Scanner) (c : Nat) : Scanner × Nat :=
  if 48 ≤ c ∧ c ≤ 57 then (s, scanContinue)
  else if c = 101 ∨ c = 69 then ({ s with step := .stateE }, scanContinue)
  else stateEndValue s c

/-- The function `stateESign`. -/
def stateESign (s : Scanner) (c : Nat) : Scanner × Nat :=
  if 48 ≤ c ∧ c ≤ 57 then ({ s with step := .stateE0 }, scanContinue)
  else s.error c "in exponent of numeric literal"

/-- The function `stateE`. -/
def stateE (s : Scanner) (c : Nat) : Scanner × Nat :=
  if c = 43 ∨ c = 45 then ({ s with step := .stateESign }, scanContinue)
  else stateESign s c

/-- The function `stateE0`. -/
def stateE0 (s : Scanner) (c : Nat) : Scanner × Nat :=
  if 48 ≤ c ∧ c ≤ 57 then (s, scanContinue)
  else stateEndValue s c

/-- The literal states `stateT` ... `stateNul`: the byte `want` is expected,
scanning goes on in state `next`. -/
def stateLit (want : Nat) (next : ScanStep) (context : String) (s : Scanner) (c : Nat) :
    Scanner × Nat :=
  if c = want then ({ s with step := next }, scanContinue)
  else s.error c context

/-- The call `s.step(s, c)`: dispatch on the current step function. -/
def Scanner.run (s : Scanner) (c : Nat) : Scanner × Nat :=
  match s.step with
  | .stateBeginValueOrEmpty => stateBeginValueOrEmpty s c
  | .stateBeginValue => stateBeginValue s c
  | .stateBeginStringOrEmpty => stateBeginStringOrEmpty s c
  | .stateBeginString => stateBeginString s c
  | .stateEndValue => stateEndValue s c
  | .stateEndTop => stateEndTop s c
  | .stateInString => stateInString s c
  | .stateInStringEsc => stateInStringEsc s c
  | .stateInStringEscU => stateInStringEscUn .stateInStringEscU1 s c
  | .stateInStringEscU1 => stateInStringEscUn .stateInStringEscU12 s c
  | .stateInStringEscU12 => stateInStringEscUn .stateInStringEscU123 s c
  | .stateInStringEscU123 => stateInStringEscUn .stateInString s c
  | .stateNeg => stateNeg s c
  | .state1 => state1 s c
  | .state0 => state0 s c
  | .stateDot => stateDot s c
  | .stateDot0 => stateDot0 s c
  | .stateE => stateE s c
  | .stateESign => stateESign s c
  | .stateE0 => stateE0 s c
  | .stateT => stateLit 114 .stateTr "in literal true (expecting 'r')" s c
  | .stateTr => stateLit 117 .stateTru "in literal true (expecting 'u')" s c
  | .stateTru => stateLit 101 .stateEndValue "in literal true (expecting 'e')" s c
  | .stateF => stateLit 97 .stateFa "in literal false (expecting 'a')" s c
  | .stateFa => stateLit 108 .stateFal "in literal false (expecting 'l')" s c
  | .stateFal => stateLit 115 .stateFals "in literal false (expecting 's')" s c
  | .stateFals => stateLit 101 .stateEndValue "in literal false (expecting 'e')" s c
  | .stateN => stateLit 117 .stateNu "in literal null (expecting 'u')" s c
  | .stateNu => stateLit 108 .stateNul "in literal null (expecting 'l')" s c
  | .stateNul => stateLit 108 .stateEndValue "in literal null (expecting 'l')" s c
  | .stateError => (s, scanError)

/-- The method `scanner.eof`: the input is complete; the scanner with the
error recorded, and `scanEnd` or `scanError`. -/
def Scanner.eof (s : Scanner) : Scanner × Nat :=
  if s.err.isSome then (s, scanError)
  else if s.endTop then (s, scanEnd)
  else
    let s1 := (s.run 32).1
    if s1.endTop then (s1, scanEnd)
    else if s1.err.isNone then
      ({ s1 with err := some (.synErr "unexpected end of JSON input" s1.bytes) }, scanError)
    else (s1, scanError)

/-- The loop of `checkValid` over the bytes of the input. -/
def checkValidLoop (scan : Scanner) : List Nat → Option GoError
  | [] => if scan.eof.2 = scanError then scan.eof.1.err else none
  | c :: rest =>
    let scan1 := { scan with bytes := scan.bytes + 1 }
    let r := scan1.run c
    if r.2 = scanError then r.1.err else checkValidLoop r.1 rest

/-- The function `checkValid`: `none` when `data` is syntactically valid JSON. -/
def checkValid (data : List Nat) : Option GoError :=
  checkValidLoop Scanner.reset data

/-- The call `json.Unmarshal(data, &rules)` for a `rules` that is the zero
`RuleDefinitions`: the validity scan, then the decoding of valid input. -/
def jsonUnmarshal (w : Env) (data : List Nat) : RuleDefinitions × Option GoError :=
  match checkValid data with
  | some e => ([], some e)
  | none => w.decode data

/-! ## Channels and `select` loops -/

/-- What a receive on a channel yields: a delivered value, or the
observation that the channel is closed. -/
inductive Recv (α : Type)
  | value (a : α)
  | closed
  deriving DecidableEq, Repr

/-- The two-valued receive `v, more := <-ch`: a closed channel yields the zero
value and `false`. -/
def Recv.commaOk {α : Type} [Zero0 α] : Recv α → α × Bool
  | .value a => (a, true)
  | .closed => (Zero0.zero, false)

/-- The one-valued receive `v := <-ch`. -/
def Recv.val {α : Type} [Zero0 α] (r : Recv α) : α := r.commaOk.1

/-- How one pass through a loop body ends: the loop goes round again, or the
enclosing function returns. -/
inductive Ctl
  | next
  | ret
  deriving DecidableEq, Repr

/-- The loop `for { select { ... } }` of a single goroutine: `body` handles
the case that became ready; the list is what becomes ready, in order. With
no input left the `select` blocks. -/
def forSelect {ι : Type} (body : ι → Prog Ctl) : List ι → Prog Unit
  | [] => blocked
  | x :: rest => (body x).bind fun c =>
    match c with
    | .next => forSelect body rest
    | .ret => Prog.pure ()

/-- One scheduling step of a function that runs a `for { select }` loop next to
a goroutine it started: the loop receives `x`, or the goroutine runs its next
statement. -/
inductive Sched (ι : Type)
  | recv (x : ι)
  | go
  deriving DecidableEq, Repr

/-- The loop `for { select { ... } }` interleaved with a goroutine given by its
remaining statements `g`. A goroutine that has finished takes no more steps. -/
def goSelect {ι : Type} (body : ι → Prog Ctl) : List (Prog Unit) → List (Sched ι) → Prog Unit
  | _, [] => blocked
  | g, .recv x :: rest => (body x).bind fun c =>
    match c with
    | .next => goSelect body g rest
    | .ret => Prog.pure ()
  | [], .go :: rest => goSelect body [] rest
  | s :: g, .go :: rest => s.bind fun _ => goSelect body g rest

/-! ## `main.go` -/

/-- The call `fmt.Errorf(msg ++ "%w", err)`. -/
def fmtErrorf (msg : String) (err : Option GoError) : GoError :=
  match err with
  | some e => .wrap msg e
  | none => .wrapNil msg

/-- The function `getOptionnalMatcher`. -/
def getOptionnalMatcher (w : Env) : Prog (Matcher × Option GoError) :=
  match w.filePath with
  | none => pure (Matcher.nil, none)
  | some path =>
    if path = "" then pure (Matcher.nil, none)
    else do
      emit (.readFile path)
      let (stream, err) := w.readFile path
      match err with
      | some e => pure (Matcher.nil, some e)
      | none =>
        match stream with
        | none =>
          pure (Matcher.nil,
            some (fmtErrorf ("Empty, no rules provided in \"" ++ path ++ "\", err: ") err))
        | some data => do
          emit (.unmarshal data)
          let (rules, uerr) := jsonUnmarshal w data
          match uerr with
          | some e => pure (Matcher.nil, some (fmtErrorf "Wrong rule syntax, err: " (some e)))
          | none => pure (Matcher.rules rules, none)

/-- What the `select` of `info` can receive. -/
inductive InfoIn
  | signals
  | queue (r : Recv Device)
  | errors (e : GoError)
  deriving DecidableEq, Repr

/-- The body of the loop of `info`: one `select`. -/
def infoSelect : InfoIn → Prog Ctl
  | .signals => do
    emit .recvSignal
    println [.str "Exiting info mode..."]
    return .ret
  | .queue r =>
    let (device, more) := r.commaOk
    if !more then do
      println [.str "Finished processing existing devices"]
      return .ret
    else do
      println [.str "Detect device at", .str device.KObj, .str "with env", .env device.Env]
      return .next
  | .errors err => do
    println [.str "ERROR:", .err err]
    return .next

/-- The function `info`. -/
def info (matcher : Matcher) (inp : List InfoIn) : Prog Unit := do
  emit (.callInfo matcher)
  println [.str "Get existing devices..."]
  withDefer cancel do
    emit (.existingDevices matcher)
    emit .signalNotify
    forSelect infoSelect inp

/-- What the `select` of `monitor` can receive. -/
inductive MonIn
  | queue (r : Recv UEvent)
  | errors (e : GoError)
  deriving DecidableEq, Repr

/-- The body of the loop of `monitor`: one `select`. -/
def monitorSelect : MonIn → Prog Ctl
  | .queue r => do
    let uevent := r.val
    println [.str "Handle", .pretty uevent]
    return .next
  | .errors err => do
    println [.str "ERROR:", .err err]
    return .next

/-- The statements of the signal goroutine of `monitor`; the first one,
`<-signals`, is taken when a signal has been delivered. -/
def signalGoroutine : List (Prog Unit) :=
  [emit .recvSignal, println [.str "Exiting monitor mode..."], cancel, osExit 0]

/-- The function `monitor`. -/
def monitor (w : Env) (matcher : Matcher) (inp : List (Sched MonIn)) : Prog Unit := do
  emit (.callMonitor matcher)
  println [.str "Monitoring UEvent kernel message to user-space..."]
  emit .connect
  if w.connectErr.isSome then
    fatalln [.str "Unable to connect to Netlink Kobject UEvent socket"]
  withDefer (emit .connClose) do
    withDefer cancel do
      emit (.connMonitor matcher)
      emit .signalNotify
      goSelect monitorSelect signalGoroutine inp

/-- The function `main`. The call `flag.Parse()` is represented by its result,
the flag values held by `w`; `monIn` and `infoIn` are what the loop of
`monitor`, respectively of `info`, receives if that function runs. -/
def main (w : Env) (monIn : List (Sched MonIn)) (infoIn : List InfoIn) : Prog Unit := do
  let (matcher, err) ← getOptionnalMatcher w
  if let some e := err then
    fatalln [.err e]
  if w.monitorMode == false && w.infoMode == false then
    fatalln [.str "You should enable one mode:", .str w.arg0, .str "-monitor|-info"]
  if w.monitorMode && w.infoMode then
    fatalln [.str "Unable to enable both modes : monitor & info"]
  if w.monitorMode then
    monitor w matcher monIn
  if w.infoMode then
    info matcher infoIn

/-! ## Observations on traces -/

/-- Whether an action starts a mode: the entry of `monitor` or of `info`. -/
def Act.isModeCall : Act → Bool
  | .callMonitor _ => true
  | .callInfo _ => true
  | _ => false

/-- Whether an action belongs to an acquisition component: the netlink
connection or the crawler. -/
def Act.isComponent : Act → Bool
  | .connect => true
  | .connMonitor _ => true
  | .existingDevices _ => true
  | _ => false

/-- Whether an action is a `log.Fatalln`. -/
def Act.isFatal : Act → Bool
  | .fatalln _ => true
  | _ => false

/-- Whether an input ends the loop of `info`: a signal, or the closure of the
results channel. -/
def InfoIn.isTerminal : InfoIn → Bool
  | .signals => true
  | .queue .closed => true
  | _ => false

/-- What the loop of `info` prints for an input that does not end it. -/
def InfoIn.report : InfoIn → List Act
  | .queue (.value d) => [.println [.str "Detect device at", .str d.KObj, .str "with env", .env d.Env]]
  | .errors e => [.println [.str "ERROR:", .err e]]
  | _ => []

/-- What the loop of `info` prints for the input that ends it. -/
def InfoIn.farewell : InfoIn → List Act
  | .signals => [.recvSignal, .println [.str "Exiting info mode..."]]
  | .queue .closed => [.println [.str "Finished processing existing devices"]]
  | _ => []

/-- The device an action reports, when it is a "Detect device at" line. -/
def Act.reportedDevice : Act → Option Device
  | .println [.str s1, .str k, .str s2, .env e] =>
    if s1 = "Detect device at" ∧ s2 = "with env" then some ⟨k, e⟩ else none
  | _ => none

/-- The devices reported in a trace, in order. -/
def reportedDevices (t : List Act) : List Device := t.filterMap Act.reportedDevice

/-- The device an input delivers, when it is a value on the results channel. -/
def InfoIn.device : InfoIn → Option Device
  | .queue (.value d) => some d
  | _ => none

/-- What the loop of `monitor` prints for an input. -/
def MonIn.report : MonIn → Act
  | .queue r => .println [.str "Handle", .pretty r.val]
  | .errors e => .println [.str "ERROR:", .err e]

/-- The actions of the signal goroutine of `monitor`, in program order. -/
def signalActs : List Act :=
  [.recvSignal, .println [.str "Exiting monitor mode..."], .cancel, .osExit 0]

/-- Whether an action is one of the signal goroutine of `monitor`. -/
def Act.isSignalAct (a : Act) : Bool := decide (a ∈ signalActs)

/-- Whether an action can come from inside one of the two consuming loops:
a log line, the receipt of a signal, `cancel()` or `os.Exit`. -/
def Act.isLoopAct : Act → Bool
  | .println _ => true
  | .recvSignal => true
  | .cancel => true
  | .osExit _ => true
  | _ => false

/-- What `monitor` does before its loop once `Connect` has succeeded. -/
def monitorPrologue (m : Matcher) : List Act :=
  [.callMonitor m, .println [.str "Monitoring UEvent kernel message to user-space..."],
    .connect, .connMonitor m, .signalNotify]

/-- What `info` does before its loop. -/
def infoPrologue (m : Matcher) : List Act :=
  [.callInfo m, .println [.str "Get existing devices..."], .existingDevices m, .signalNotify]

/-- An environment for examples. The file `rules.json` is readable and has
zero bytes, `bad.json` holds an unfinished JSON document, `ok.json` holds an
empty JSON array, every other file is missing. -/
def exampleEnv (file : Option String) (mon inf : Bool) (conn : Option GoError) : Env :=
  { filePath := file
    monitorMode := mon
    infoMode := inf
    arg0 := "go-udev"
    readFile := fun p =>
      if p = "rules.json" then (some [], none)
      else if p = "bad.json" then (some [123], none)
      else if p = "ok.json" then (some [91, 93], none)
      else (none, some (.os "no such file or directory"))
    decode := fun _ => ([], none)
    connectErr := conn }

/-! ## Basic facts about programs -/

theorem bind_eq {α β : Type} (p : Prog α) (f : α → Prog β) : (p >>= f) = Prog.bind p f := rfl

theorem pure_eq {α : Type} (a : α) : (pure a : Prog α) = Prog.pure a := rfl

theorem isLoopAct_quiet (a : Act) (h : a.isLoopAct = true) :
    a.isModeCall = false ∧ a.isComponent = false ∧ a.isFatal = false ∧ a ≠ .connClose := by
  cases a <;> simp_all [Act.isLoopAct, Act.isModeCall, Act.isComponent, Act.isFatal]

theorem filter_eq_nil_of_loop (p : Act → Bool) (t : List Act)
    (ht : ∀ a ∈ t, a.isLoopAct = true) (hp : ∀ a, a.isLoopAct = true → p a = false) :
    t.filter p = [] := by
  rw [List.filter_eq_nil_iff]
  intro a ha
  simp [hp a (ht a ha)]

/-! ## The rule-file loader -/

theorem gom_unset (w : Env) (h : w.filePath = none ∨ w.filePath = some "") :
    getOptionnalMatcher w = ⟨[], .done (Matcher.nil, none)⟩ := by
  rcases h with h | h <;> simp [getOptionnalMatcher, h, pure_eq, Prog.pure]

theorem gom_read_error (w : Env) (path : String) (s : Option (List Nat)) (e : GoError)
    (hp : w.filePath = some path) (hne : path ≠ "") (hr : w.readFile path = (s, some e)) :
    getOptionnalMatcher w = ⟨[.readFile path], .done (Matcher.nil, some e)⟩ := by
  simp [getOptionnalMatcher, hp, hne, hr, bind_eq, pure_eq, Prog.bind, Prog.pure, emit]

theorem gom_nil_stream (w : Env) (path : String)
    (hp : w.filePath = some path) (hne : path ≠ "") (hr : w.readFile path = (none, none)) :
    getOptionnalMatcher w = ⟨[.readFile path],
      .done (Matcher.nil,
        some (.wrapNil ("Empty, no rules provided in \"" ++ path ++ "\", err: ")))⟩ := by
  simp [getOptionnalMatcher, hp, hne, hr, bind_eq, pure_eq, Prog.bind, Prog.pure, emit, fmtErrorf]

theorem gom_parse_error (w : Env) (path : String) (data : List Nat) (r : RuleDefinitions)
    (e : GoError) (hp : w.filePath = some path) (hne : path ≠ "")
    (hr : w.readFile path = (some data, none)) (hu : jsonUnmarshal w data = (r, some e)) :
    getOptionnalMatcher w = ⟨[.readFile path, .unmarshal data],
      .done (Matcher.nil, some (.wrap "Wrong rule syntax, err: " e))⟩ := by
  simp [getOptionnalMatcher, hp, hne, hr, hu, bind_eq, pure_eq, Prog.bind, Prog.pure, emit,
    fmtErrorf]

theorem gom_loaded (w : Env) (path : String) (data : List Nat) (r : RuleDefinitions)
    (hp : w.filePath = some path) (hne : path ≠ "")
    (hr : w.readFile path = (some data, none)) (hu : jsonUnmarshal w data = (r, none)) :
    getOptionnalMatcher w =
      ⟨[.readFile path, .unmarshal data], .done (Matcher.rules r, none)⟩ := by
  simp [getOptionnalMatcher, hp, hne, hr, hu, bind_eq, pure_eq, Prog.bind, Prog.pure, emit]

theorem jsonUnmarshal_empty (w : Env) :
    jsonUnmarshal w [] = ([], some (.synErr "unexpected end of JSON input" 0)) := rfl

/-- The loader always returns, and all it does is read the file and parse it. -/
theorem gom_total (w : Env) :
    (∃ m e, (getOptionnalMatcher w).res = .done (m, e)) ∧
    ∀ a ∈ (getOptionnalMatcher w).trace, (∃ p, a = .readFile p) ∨ ∃ d, a = .unmarshal d := by
  cases hp : w.filePath with
  | none => rw [gom_unset w (Or.inl hp)]; simp
  | some path =>
    by_cases hne : path = ""
    · subst hne; rw [gom_unset w (Or.inr hp)]; simp
    · rcases hr : w.readFile path with ⟨stream, err⟩
      cases err with
      | some e => rw [gom_read_error w path stream e hp hne hr]; simp
      | none =>
        cases stream with
        | none => rw [gom_nil_stream w path hp hne hr]; simp
        | some data =>
          rcases hu : jsonUnmarshal w data with ⟨r, uerr⟩
          cases uerr with
          | some e => rw [gom_parse_error w path data r e hp hne hr hu]; simp
          | none => rw [gom_loaded w path data r hp hne hr hu]; simp

theorem gom_quiet (w : Env) (p : Act → Bool)
    (h1 : ∀ x, p (.readFile x) = false) (h2 : ∀ d, p (.unmarshal d) = false) :
    (getOptionnalMatcher w).trace.filter p = [] := by
  rw [List.filter_eq_nil_iff]
  intro a ha
  rcases (gom_total w).2 a ha with ⟨x, rfl⟩ | ⟨d, rfl⟩
  · simp [h1]
  · simp [h2]

/-! ## The loop of `info` -/

theorem infoSelect_terminal (x : InfoIn) (h : x.isTerminal = true) :
    infoSelect x = ⟨x.farewell, .done .ret⟩ := by
  rcases x with _ | ⟨_ | _⟩ | _ <;> simp [InfoIn.isTerminal] at h <;> rfl

theorem infoSelect_other (x : InfoIn) (h : x.isTerminal = false) :
    infoSelect x = ⟨x.report, .done .next⟩ := by
  rcases x with _ | ⟨_ | _⟩ | _ <;> simp [InfoIn.isTerminal] at h <;> rfl

/-- Closed form of the loop of `info`. -/
theorem infoLoop_eq (inp : List InfoIn) :
    forSelect infoSelect inp =
      ⟨(inp.takeWhile fun x => !x.isTerminal).flatMap InfoIn.report ++
          ((inp.find? InfoIn.isTerminal).map InfoIn.farewell).getD [],
        if inp.any InfoIn.isTerminal then .done () else .halt .blocked⟩ := by
  induction inp with
  | nil => rfl
  | cons x rest ih =>
    cases hx : x.isTerminal with
    | true =>
      simp [forSelect, infoSelect_terminal x hx, Prog.bind, Prog.pure, hx, List.takeWhile_cons,
        List.find?_cons]
    | false =>
      simp [forSelect, infoSelect_other x hx, Prog.bind, hx, List.takeWhile_cons,
        List.find?_cons, ih]

theorem report_loopAct (x : InfoIn) : ∀ a ∈ x.report, a.isLoopAct = true ∧ a ≠ .cancel := by
  rcases x with _ | ⟨_ | _⟩ | _ <;> simp [InfoIn.report, Act.isLoopAct]

theorem farewell_loopAct (x : InfoIn) : ∀ a ∈ x.farewell, a.isLoopAct = true ∧ a ≠ .cancel := by
  rcases x with _ | ⟨_ | _⟩ | _ <;> simp [InfoIn.farewell, Act.isLoopAct]

theorem infoLoop_loopAct (inp : List InfoIn) :
    ∀ a ∈ (forSelect infoSelect inp).trace, a.isLoopAct = true ∧ a ≠ .cancel := by
  induction inp with
  | nil => simp [forSelect, blocked]
  | cons x rest ih =>
    intro a ha
    cases hx : x.isTerminal with
    | true =>
      simp only [forSelect, infoSelect_terminal x hx, Prog.bind, Prog.pure,
        List.append_nil] at ha
      exact farewell_loopAct x a ha
    | false =>
      simp only [forSelect, infoSelect_other x hx, Prog.bind, List.mem_append] at ha
      rcases ha with ha | ha
      · exact report_loopAct x a ha
      · exact ih a ha

/-- The function `info` as its prologue, its loop and the deferred `cancel()`,
which runs when the loop has returned. -/
theorem info_eq (m : Matcher) (inp : List InfoIn) :
    info m inp =
      ⟨infoPrologue m ++ (forSelect infoSelect inp).trace ++
          (match (forSelect infoSelect inp).res with
            | .done _ => [.cancel]
            | .halt _ => []),
        (forSelect infoSelect inp).res⟩ := by
  have h : info m inp =
      ⟨[.callInfo m, .println [.str "Get existing devices..."]] ++
        (withDefer cancel
          ⟨[.existingDevices m, .signalNotify] ++ (forSelect infoSelect inp).trace,
            (forSelect infoSelect inp).res⟩).trace,
        (withDefer cancel
          ⟨[.existingDevices m, .signalNotify] ++ (forSelect infoSelect inp).trace,
            (forSelect infoSelect inp).res⟩).res⟩ := by
    simp [info, bind_eq, Prog.bind, emit, println]
  rw [h]
  cases hr : (forSelect infoSelect inp).res <;> simp [withDefer, cancel, emit, infoPrologue]

/-- The loop of `info` on an input whose first terminal element is `x`. -/
theorem infoLoop_until (before after : List InfoIn) (x : InfoIn)
    (hb : ∀ y ∈ before, y.isTerminal = false) (hx : x.isTerminal = true) :
    forSelect infoSelect (before ++ x :: after) =
      ⟨before.flatMap InfoIn.report ++ x.farewell, .done ()⟩ := by
  induction before with
  | nil => simp [forSelect, infoSelect_terminal x hx, Prog.bind, Prog.pure]
  | cons y rest ih =>
    have hy : y.isTerminal = false := hb y (List.mem_cons_self _ _)
    have ih1 := ih (fun z hz => hb z (List.mem_cons_of_mem _ hz))
    simp [forSelect, infoSelect_other y hy, Prog.bind, ih1]

theorem reported_report (l : List InfoIn) :
    reportedDevices (l.flatMap InfoIn.report) = l.filterMap InfoIn.device := by
  induction l with
  | nil => rfl
  | cons x rest ih =>
    unfold reportedDevices at ih ⊢
    rw [List.flatMap_cons, List.filterMap_append, ih]
    rcases x with _ | ⟨_ | _⟩ | _ <;>
      simp [InfoIn.report, InfoIn.device, Act.reportedDevice]

theorem reported_farewell (x : InfoIn) : reportedDevices x.farewell = [] := by
  rcases x with _ | ⟨_ | _⟩ | _ <;> simp [InfoIn.farewell, reportedDevices, Act.reportedDevice]

/-! ## The loop of `monitor` -/

theorem monitorSelect_eq (x : MonIn) : monitorSelect x = ⟨[x.report], .done .next⟩ := by
  cases x <;> rfl

theorem report_not_signal (x : MonIn) : x.report.isSignalAct = false := by
  cases x <;> simp [MonIn.report, Act.isSignalAct, signalActs]

theorem goSelect_recv (g : List (Prog Unit)) (x : MonIn) (rest : List (Sched MonIn)) :
    goSelect monitorSelect g (.recv x :: rest) =
      ⟨x.report :: (goSelect monitorSelect g rest).trace,
        (goSelect monitorSelect g rest).res⟩ := by
  cases g <;> simp [goSelect, monitorSelect_eq, Prog.bind]

theorem goSelect_go_emit (a : Act) (g : List (Prog Unit)) (rest : List (Sched MonIn)) :
    goSelect monitorSelect (emit a :: g) (.go :: rest) =
      ⟨a :: (goSelect monitorSelect g rest).trace, (goSelect monitorSelect g rest).res⟩ := by
  simp [goSelect, emit, Prog.bind]

theorem goSelect_go_exit (c : Nat) (g : List (Prog Unit)) (rest : List (Sched MonIn)) :
    goSelect monitorSelect (osExit c :: g) (.go :: rest) =
      ⟨[.osExit c], .halt (.exited c)⟩ := by
  simp [goSelect, osExit, Prog.bind]

/-- Without a step of the signal goroutine the loop of `monitor` prints one
line per input and stays in its `select`. -/
theorem monitorLoop_recv_only (g : List (Prog Unit)) (xs : List MonIn) :
    goSelect monitorSelect g (xs.map Sched.recv) = ⟨xs.map MonIn.report, .halt .blocked⟩ := by
  induction xs with
  | nil => cases g <;> rfl
  | cons x rest ih => simp [goSelect_recv, ih]

/-- Invariant of the loop of `monitor` next to a goroutine that still has the
actions `acts` and then `os.Exit(0)` to run. -/
theorem monitorLoop_inv (sched : List (Sched MonIn)) : ∀ acts : List Act,
    (∀ a ∈ acts, a.isSignalAct = true) →
    ((goSelect monitorSelect (acts.map emit ++ [osExit 0]) sched).res = .halt .blocked ∨
      ((goSelect monitorSelect (acts.map emit ++ [osExit 0]) sched).res = .halt (.exited 0) ∧
        (goSelect monitorSelect (acts.map emit ++ [osExit 0]) sched).trace.filter Act.isSignalAct
          = acts ++ [.osExit 0] ∧
        ∃ pre, (goSelect monitorSelect (acts.map emit ++ [osExit 0]) sched).trace
          = pre ++ [.osExit 0])) ∧
    (goSelect monitorSelect (acts.map emit ++ [osExit 0]) sched).trace.filter Act.isSignalAct
      <+: acts ++ [.osExit 0] ∧
    ∀ a ∈ (goSelect monitorSelect (acts.map emit ++ [osExit 0]) sched).trace,
      a.isLoopAct = true := by
  induction sched with
  | nil =>
    intro acts _
    have h : goSelect monitorSelect (acts.map emit ++ [osExit 0]) ([] : List (Sched MonIn))
        = blocked := by
      cases hg : acts.map emit ++ [osExit 0] <;> rfl
    rw [h]
    simp [blocked]
  | cons s rest ih =>
    intro acts hacts
    cases s with
    | recv x =>
      rw [goSelect_recv]
      simp only [List.filter_cons, report_not_signal]
      obtain ⟨h1, h2, h3⟩ := ih acts hacts
      refine ⟨?_, h2, ?_⟩
      · rcases h1 with h | ⟨ha, hb, pre, hc⟩
        · exact Or.inl h
        · exact Or.inr ⟨ha, hb, x.report :: pre, by simp [hc]⟩
      · intro a ha
        rcases List.mem_cons.1 ha with rfl | ha
        · cases x <;> rfl
        · exact h3 a ha
    | go =>
      cases acts with
      | nil =>
        have e : ([] : List Act).map emit ++ [osExit 0] = osExit 0 :: [] := rfl
        rw [e, goSelect_go_exit]
        have hs : Act.isSignalAct (.osExit 0) = true := by decide
        simp [hs, Act.isLoopAct]
      | cons a acts1 =>
        have e : (a :: acts1).map emit ++ [osExit 0] = emit a :: (acts1.map emit ++ [osExit 0]) :=
          rfl
        rw [e, goSelect_go_emit]
        have hs : a.isSignalAct = true := hacts a (List.mem_cons_self _ _)
        obtain ⟨h1, h2, h3⟩ := ih acts1 (fun b hb => hacts b (List.mem_cons_of_mem _ hb))
        simp only [List.filter_cons, hs, if_true]
        refine ⟨?_, ?_, ?_⟩
        · rcases h1 with h | ⟨ha, hb, pre, hc⟩
          · exact Or.inl h
          · exact Or.inr ⟨ha, by simp [hb], a :: pre, by simp [hc]⟩
        · simpa using h2
        · intro b hb
          rcases List.mem_cons.1 hb with rfl | hb
          · have : b ∈ signalActs := by simpa [Act.isSignalAct] using hs
            simp only [signalActs, List.mem_cons, List.mem_singleton, List.not_mem_nil,
              or_false] at this
            rcases this with rfl | rfl | rfl | rfl <;> rfl
          · exact h3 b hb

theorem signalGoroutine_eq :
    signalGoroutine = (signalActs.take 3).map emit ++ [osExit 0] := rfl

/-- Invariant of the loop of `monitor` next to its signal goroutine. -/
theorem monitorLoop_spec (sched : List (Sched MonIn)) :
    ((goSelect monitorSelect signalGoroutine sched).res = .halt .blocked ∨
      ((goSelect monitorSelect signalGoroutine sched).res = .halt (.exited 0) ∧
        (goSelect monitorSelect signalGoroutine sched).trace.filter Act.isSignalAct = signalActs ∧
        ∃ pre, (goSelect monitorSelect signalGoroutine sched).trace = pre ++ [.osExit 0])) ∧
    (goSelect monitorSelect signalGoroutine sched).trace.filter Act.isSignalAct <+: signalActs ∧
    ∀ a ∈ (goSelect monitorSelect signalGoroutine sched).trace, a.isLoopAct = true := by
  have h := monitorLoop_inv sched (signalActs.take 3) (by decide)
  rw [← signalGoroutine_eq] at h
  exact h

/-- The function `monitor` after a successful `Connect`: its prologue and its
loop; nothing runs after the loop. -/
theorem monitor_connected (w : Env) (m : Matcher) (sched : List (Sched MonIn))
    (h : w.connectErr = none) :
    monitor w m sched =
      ⟨monitorPrologue m ++ (goSelect monitorSelect signalGoroutine sched).trace,
        (goSelect monitorSelect signalGoroutine sched).res⟩ := by
  have h1 : monitor w m sched = ⟨[.callMonitor m,
        .println [.str "Monitoring UEvent kernel message to user-space..."], .connect] ++
        (withDefer (emit .connClose) (withDefer cancel
          ⟨[.connMonitor m, .signalNotify] ++ (goSelect monitorSelect signalGoroutine sched).trace,
            (goSelect monitorSelect signalGoroutine sched).res⟩)).trace,
        (withDefer (emit .connClose) (withDefer cancel
          ⟨[.connMonitor m, .signalNotify] ++ (goSelect monitorSelect signalGoroutine sched).trace,
            (goSelect monitorSelect signalGoroutine sched).res⟩)).res⟩ := by
    simp [monitor, h, bind_eq, pure_eq, Prog.bind, Prog.pure, emit, println]
  rw [h1]
  rcases (monitorLoop_spec sched).1 with hb | ⟨hb, _⟩
  · simp [withDefer, hb, monitorPrologue]
  · simp [withDefer, hb, monitorPrologue]

theorem monitor_connect_failed (w : Env) (m : Matcher) (inp : List (Sched MonIn)) (e : GoError)
    (h : w.connectErr = some e) :
    monitor w m inp = ⟨[.callMonitor m,
        .println [.str "Monitoring UEvent kernel message to user-space..."], .connect,
        .fatalln [.str "Unable to connect to Netlink Kobject UEvent socket"]],
        .halt (.exited 1)⟩ := by
  simp [monitor, h, bind_eq, pure_eq, Prog.bind, Prog.pure, emit, fatalln, println]

/-! ## The function `main` -/

theorem main_load_failed (w : Env) (monIn : List (Sched MonIn)) (infoIn : List InfoIn)
    (m : Matcher) (e : GoError) (h : (getOptionnalMatcher w).res = .done (m, some e)) :
    main w monIn infoIn =
      ⟨(getOptionnalMatcher w).trace ++ [.fatalln [.err e]], .halt (.exited 1)⟩ := by
  simp [main, bind_eq, Prog.bind, h, fatalln]

theorem main_neither (w : Env) (monIn : List (Sched MonIn)) (infoIn : List InfoIn)
    (m : Matcher) (h : (getOptionnalMatcher w).res = .done (m, none))
    (hm : w.monitorMode = false) (hi : w.infoMode = false) :
    main w monIn infoIn =
      ⟨(getOptionnalMatcher w).trace ++
        [.fatalln [.str "You should enable one mode:", .str w.arg0, .str "-monitor|-info"]],
        .halt (.exited 1)⟩ := by
  simp [main, bind_eq, pure_eq, Prog.bind, h, fatalln, hm, hi, Prog.pure]

theorem main_both (w : Env) (monIn : List (Sched MonIn)) (infoIn : List InfoIn)
    (m : Matcher) (h : (getOptionnalMatcher w).res = .done (m, none))
    (hm : w.monitorMode = true) (hi : w.infoMode = true) :
    main w monIn infoIn =
      ⟨(getOptionnalMatcher w).trace ++
        [.fatalln [.str "Unable to enable both modes : monitor & info"]],
        .halt (.exited 1)⟩ := by
  simp [main, bind_eq, pure_eq, Prog.bind, h, fatalln, hm, hi, Prog.pure]

theorem main_monitor_only (w : Env) (monIn : List (Sched MonIn)) (infoIn : List InfoIn)
    (m : Matcher) (h : (getOptionnalMatcher w).res = .done (m, none))
    (hm : w.monitorMode = true) (hi : w.infoMode = false) :
    main w monIn infoIn =
      ⟨(getOptionnalMatcher w).trace ++ (monitor w m monIn).trace, (monitor w m monIn).res⟩ := by
  simp only [main, bind_eq, pure_eq, Prog.bind, h, hm, hi, Prog.pure]
  cases hr : (monitor w m monIn).res <;> simp

theorem main_info_only (w : Env) (monIn : List (Sched MonIn)) (infoIn : List InfoIn)
    (m : Matcher) (h : (getOptionnalMatcher w).res = .done (m, none))
    (hm : w.monitorMode = false) (hi : w.infoMode = true) :
    main w monIn infoIn =
      ⟨(getOptionnalMatcher w).trace ++ (info m infoIn).trace, (info m infoIn).res⟩ := by
  simp only [main, bind_eq, pure_eq, Prog.bind, h, hm, hi, Prog.pure]
  simp

theorem monitor_modeCalls (w : Env) (m : Matcher) (sched : List (Sched MonIn)) :
    (monitor w m sched).trace.filter Act.isModeCall = [.callMonitor m] ∧
    (monitor w m sched).trace.filter Act.isFatal =
      (if w.connectErr.isSome then
        [.fatalln [.str "Unable to connect to Netlink Kobject UEvent socket"]] else []) ∧
    (monitor w m sched).trace.filter Act.isComponent =
      (if w.connectErr.isSome then [.connect] else [.connect, .connMonitor m]) := by
  cases hc : w.connectErr with
  | some e =>
    rw [monitor_connect_failed w m sched e hc]
    simp [Act.isModeCall, Act.isComponent, Act.isFatal]
  | none =>
    rw [monitor_connected w m sched hc]
    have hl := (monitorLoop_spec sched).2.2
    simp only [List.filter_append]
    rw [filter_eq_nil_of_loop Act.isModeCall _ hl (fun a ha => (isLoopAct_quiet a ha).1),
      filter_eq_nil_of_loop Act.isFatal _ hl (fun a ha => (isLoopAct_quiet a ha).2.2.1),
      filter_eq_nil_of_loop Act.isComponent _ hl (fun a ha => (isLoopAct_quiet a ha).2.1)]
    simp [monitorPrologue, Act.isModeCall, Act.isComponent, Act.isFatal]

theorem info_modeCalls (m : Matcher) (inp : List InfoIn) :
    (info m inp).trace.filter Act.isModeCall = [.callInfo m] ∧
    (info m inp).trace.filter Act.isFatal = [] ∧
    (info m inp).trace.filter Act.isComponent = [.existingDevices m] := by
  rw [info_eq]
  have hl : ∀ a ∈ (forSelect infoSelect inp).trace, a.isLoopAct = true :=
    fun a ha => (infoLoop_loopAct inp a ha).1
  simp only [List.filter_append]
  rw [filter_eq_nil_of_loop Act.isModeCall _ hl (fun a ha => (isLoopAct_quiet a ha).1),
    filter_eq_nil_of_loop Act.isFatal _ hl (fun a ha => (isLoopAct_quiet a ha).2.2.1),
    filter_eq_nil_of_loop Act.isComponent _ hl (fun a ha => (isLoopAct_quiet a ha).2.1)]
  cases (forSelect infoSelect inp).res <;>
    simp [infoPrologue, Act.isModeCall, Act.isComponent, Act.isFatal]

/-- With the matcher loaded and exactly one mode flag set, `main` runs the
selected function once, with the loaded matcher, and not the other one. -/
theorem main_selected (w : Env) (monIn : List (Sched MonIn)) (infoIn : List InfoIn)
    (m : Matcher) (hload : (getOptionnalMatcher w).res = .done (m, none))
    (hmode : w.monitorMode ≠ w.infoMode) :
    (main w monIn infoIn).trace.filter Act.isModeCall =
      [if w.monitorMode then .callMonitor m else .callInfo m] ∧
    (main w monIn infoIn).trace.filter Act.isComponent =
      (if w.monitorMode then
        (if w.connectErr.isSome then [.connect] else [.connect, .connMonitor m])
      else [.existingDevices m]) := by
  have q1 := gom_quiet w Act.isModeCall (fun _ => rfl) (fun _ => rfl)
  have q2 := gom_quiet w Act.isComponent (fun _ => rfl) (fun _ => rfl)
  cases hm : w.monitorMode <;> cases hi : w.infoMode <;> simp [hm, hi] at hmode
  · rw [main_info_only w monIn infoIn m hload hm hi]
    simp [List.filter_append, q1, q2, info_modeCalls]
  · rw [main_monitor_only w monIn infoIn m hload hm hi]
    simp [List.filter_append, q1, q2, monitor_modeCalls]

/-- When the loader reports an error, `main` reports it once and stops. -/
theorem main_load_failed_spec (w : Env) (monIn : List (Sched MonIn)) (infoIn : List InfoIn)
    (m : Matcher) (e : GoError) (h : (getOptionnalMatcher w).res = .done (m, some e)) :
    (main w monIn infoIn).res = .halt (.exited 1) ∧
    (main w monIn infoIn).trace = (getOptionnalMatcher w).trace ++ [.fatalln [.err e]] ∧
    (main w monIn infoIn).trace.filter Act.isFatal = [.fatalln [.err e]] ∧
    (main w monIn infoIn).trace.filter Act.isModeCall = [] ∧
    (main w monIn infoIn).trace.filter Act.isComponent = [] := by
  have q0 := gom_quiet w Act.isFatal (fun _ => rfl) (fun _ => rfl)
  have q1 := gom_quiet w Act.isModeCall (fun _ => rfl) (fun _ => rfl)
  have q2 := gom_quiet w Act.isComponent (fun _ => rfl) (fun _ => rfl)
  rw [main_load_failed w monIn infoIn m e h]
  simp [List.filter_append, q0, q1, q2, Act.isFatal, Act.isModeCall, Act.isComponent]

/-! ## The claims -/

/-- C1: whenever the matcher is loaded without error and the flags `-monitor`
and `-info` are both unset or both set, `main` ends in `log.Fatalln` (exit
status 1) right after the loader, and neither `monitor` nor `info` is entered
and no component (netlink connection, crawler) is used. -/
theorem invalid_mode_selection_is_fatal (w : Env) (monIn : List (Sched MonIn))
    (infoIn : List InfoIn) (m : Matcher)
    (hload : (getOptionnalMatcher w).res = .done (m, none))
    (hmode : w.monitorMode = w.infoMode) :
    (main w monIn infoIn).res = .halt (.exited 1) ∧
    (∃ args, (main w monIn infoIn).trace = (getOptionnalMatcher w).trace ++ [.fatalln args]) ∧
    (main w monIn infoIn).trace.filter Act.isModeCall = [] ∧
    (main w monIn infoIn).trace.filter Act.isComponent = [] := by
  have q1 := gom_quiet w Act.isModeCall (fun _ => rfl) (fun _ => rfl)
  have q2 := gom_quiet w Act.isComponent (fun _ => rfl) (fun _ => rfl)
  cases hm : w.monitorMode <;> cases hi : w.infoMode <;> simp [hm, hi] at hmode
  · rw [main_neither w monIn infoIn m hload hm hi]
    simp [List.filter_append, q1, q2, Act.isModeCall, Act.isComponent]
  · rw [main_both w monIn infoIn m hload hm hi]
    simp [List.filter_append, q1, q2, Act.isModeCall, Act.isComponent]

theorem invalid_mode_selection_is_fatal_witness :
    (getOptionnalMatcher (exampleEnv (some "ok.json") true true none)).res
      = .done (Matcher.rules [], none) ∧
    (main (exampleEnv (some "ok.json") true true none) [] []).res = .halt (.exited 1) ∧
    (∃ args, (main (exampleEnv (some "ok.json") true true none) [] []).trace =
      (getOptionnalMatcher (exampleEnv (some "ok.json") true true none)).trace
        ++ [.fatalln args]) ∧
    (main (exampleEnv (some "ok.json") true true none) [] []).trace.filter Act.isModeCall = [] ∧
    (main (exampleEnv (some "ok.json") true true none) [] []).trace.filter Act.isComponent = [] :=
  ⟨by decide, invalid_mode_selection_is_fatal (exampleEnv (some "ok.json") true true none) [] []
    (Matcher.rules []) (by decide) rfl⟩

/-- C2: when a rule-file path is given and the file cannot be read, or its
content is rejected by `json.Unmarshal`, `getOptionnalMatcher` returns a nil
matcher and a non-nil error (the read error itself, or the parse error wrapped
in "Wrong rule syntax, err: "); `main` reports that error in exactly one
`log.Fatalln`, exits with status 1, and starts neither mode nor any component,
whatever the values of the mode flags. -/
theorem rule_file_failure_is_fatal (w : Env) (path : String) (monIn : List (Sched MonIn))
    (infoIn : List InfoIn) (hp : w.filePath = some path) (hne : path ≠ "")
    (hfail : (∃ s e, w.readFile path = (s, some e)) ∨
      ∃ data r e, w.readFile path = (some data, none) ∧ jsonUnmarshal w data = (r, some e)) :
    ∃ err, (getOptionnalMatcher w).res = .done (Matcher.nil, some err) ∧
      (∀ s e, w.readFile path = (s, some e) → err = e) ∧
      (∀ data r e, w.readFile path = (some data, none) → jsonUnmarshal w data = (r, some e) →
        err = .wrap "Wrong rule syntax, err: " e) ∧
      (main w monIn infoIn).res = .halt (.exited 1) ∧
      (main w monIn infoIn).trace = (getOptionnalMatcher w).trace ++ [.fatalln [.err err]] ∧
      (main w monIn infoIn).trace.filter Act.isFatal = [.fatalln [.err err]] ∧
      (main w monIn infoIn).trace.filter Act.isModeCall = [] ∧
      (main w monIn infoIn).trace.filter Act.isComponent = [] := by
  rcases hfail with ⟨s, e, hr⟩ | ⟨data, r, e, hr, hu⟩
  · have hg := gom_read_error w path s e hp hne hr
    have hres : (getOptionnalMatcher w).res = .done (Matcher.nil, some e) := by rw [hg]
    refine ⟨e, hres, ?_, ?_, main_load_failed_spec w monIn infoIn _ e hres⟩
    · intro s1 e1 h1
      rw [hr] at h1
      simp only [Prod.mk.injEq, Option.some.injEq] at h1
      exact h1.2
    · intro d1 r1 e1 h1
      rw [hr] at h1
      simp at h1
  · have hg := gom_parse_error w path data r e hp hne hr hu
    have hres : (getOptionnalMatcher w).res =
        .done (Matcher.nil, some (.wrap "Wrong rule syntax, err: " e)) := by rw [hg]
    refine ⟨_, hres, ?_, ?_, main_load_failed_spec w monIn infoIn _ _ hres⟩
    · intro s1 e1 h1
      rw [hr] at h1
      simp at h1
    · intro d1 r1 e1 h1 h2
      rw [hr] at h1
      simp only [Prod.mk.injEq, Option.some.injEq, and_true] at h1
      subst h1
      rw [hu] at h2
      simp only [Prod.mk.injEq, Option.some.injEq] at h2
      rw [h2.2]

theorem rule_file_failure_is_fatal_witness :
    (exampleEnv (some "bad.json") true false none).filePath = some "bad.json" ∧
    "bad.json" ≠ "" ∧
    (exampleEnv (some "bad.json") true false none).readFile "bad.json" = (some [123], none) ∧
    jsonUnmarshal (exampleEnv (some "bad.json") true false none) [123]
      = ([], some (.synErr "unexpected end of JSON input" 1)) ∧
    ∃ err, (getOptionnalMatcher (exampleEnv (some "bad.json") true false none)).res
        = .done (Matcher.nil, some err) ∧
      (main (exampleEnv (some "bad.json") true false none) [] []).res = .halt (.exited 1) ∧
      (main (exampleEnv (some "bad.json") true false none) [] []).trace.filter Act.isFatal
        = [.fatalln [.err err]] :=
  ⟨rfl, by decide, by decide, by decide,
    (rule_file_failure_is_fatal (exampleEnv (some "bad.json") true false none) "bad.json" [] []
      rfl (by decide) (Or.inr ⟨[123], [], .synErr "unexpected end of JSON input" 1, by decide, by decide⟩)).elim
      fun err h => ⟨err, h.1, h.2.2.2.1, h.2.2.2.2.2.1⟩⟩

/-- C3: when the matcher is loaded without error and exactly one of `-monitor`
and `-info` is set, `main` enters exactly the selected function, exactly once,
with the matcher that `getOptionnalMatcher` returned, and never the other
one: the whole run is the loader followed by that function. -/
theorem exactly_selected_mode_runs (w : Env) (monIn : List (Sched MonIn))
    (infoIn : List InfoIn) (m : Matcher)
    (hload : (getOptionnalMatcher w).res = .done (m, none))
    (hmode : w.monitorMode ≠ w.infoMode) :
    (main w monIn infoIn).trace.filter Act.isModeCall =
      [if w.monitorMode then .callMonitor m else .callInfo m] ∧
    (w.monitorMode = true →
      main w monIn infoIn =
        ⟨(getOptionnalMatcher w).trace ++ (monitor w m monIn).trace, (monitor w m monIn).res⟩) ∧
    (w.infoMode = true →
      main w monIn infoIn =
        ⟨(getOptionnalMatcher w).trace ++ (info m infoIn).trace, (info m infoIn).res⟩) ∧
    (main w monIn infoIn).trace.filter Act.isComponent =
      (if w.monitorMode then
        (if w.connectErr.isSome then [.connect] else [.connect, .connMonitor m])
      else [.existingDevices m]) := by
  have hs := main_selected w monIn infoIn m hload hmode
  refine ⟨hs.1, ?_, ?_, hs.2⟩
  · intro hm
    have hi : w.infoMode = false := by
      cases hi : w.infoMode
      · rfl
      · exact absurd (hm.trans hi.symm) hmode
    exact main_monitor_only w monIn infoIn m hload hm hi
  · intro hi
    have hm : w.monitorMode = false := by
      cases hm : w.monitorMode
      · rfl
      · exact absurd (hm.trans hi.symm) hmode
    exact main_info_only w monIn infoIn m hload hm hi

theorem exactly_selected_mode_runs_witness :
    (getOptionnalMatcher (exampleEnv (some "ok.json") false true none)).res
      = .done (Matcher.rules [], none) ∧
    (exampleEnv (some "ok.json") false true none).monitorMode
      ≠ (exampleEnv (some "ok.json") false true none).infoMode ∧
    (main (exampleEnv (some "ok.json") false true none) [] [.signals]).trace.filter
      Act.isModeCall = [.callInfo (Matcher.rules [])] :=
  ⟨by decide, by decide,
    (exactly_selected_mode_runs (exampleEnv (some "ok.json") false true none) [] [.signals]
      (Matcher.rules []) (by decide) (by decide)).1⟩

/-- C4: when no rule file is configured (the `-file` pointer is nil or the
flag is the empty string), `getOptionnalMatcher` returns the nil matcher and a
nil error and does nothing else (no file is read, no JSON is parsed), so with
exactly one mode flag set the selected function and its component are started
with the nil matcher. -/
theorem no_rule_file_means_nil_matcher (w : Env) (monIn : List (Sched MonIn))
    (infoIn : List InfoIn) (hfile : w.filePath = none ∨ w.filePath = some "") :
    getOptionnalMatcher w = ⟨[], .done (Matcher.nil, none)⟩ ∧
    (w.monitorMode ≠ w.infoMode →
      (main w monIn infoIn).trace.filter Act.isModeCall =
        [if w.monitorMode then .callMonitor Matcher.nil else .callInfo Matcher.nil] ∧
      (main w monIn infoIn).trace.filter Act.isComponent =
        (if w.monitorMode then
          (if w.connectErr.isSome then [.connect] else [.connect, .connMonitor Matcher.nil])
        else [.existingDevices Matcher.nil])) := by
  have hg := gom_unset w hfile
  refine ⟨hg, fun hmode => ?_⟩
  exact main_selected w monIn infoIn Matcher.nil (by rw [hg]) hmode

theorem no_rule_file_means_nil_matcher_witness :
    ((exampleEnv (some "") true false none).filePath = none ∨
      (exampleEnv (some "") true false none).filePath = some "") ∧
    getOptionnalMatcher (exampleEnv (some "") true false none)
      = ⟨[], .done (Matcher.nil, none)⟩ :=
  ⟨Or.inr rfl,
    (no_rule_file_means_nil_matcher (exampleEnv (some "") true false none) [] []
      (Or.inr rfl)).1⟩

/-- C5, as the code behaves: a readable rule file with zero bytes is not
accepted as "no matcher". Here `rules.json` exists and is empty; the loader
returns the error "Wrong rule syntax, err: unexpected end of JSON input", not
the pair of a nil matcher and a nil error, and `main` stops with a fatal error
before the selected mode. -/
theorem empty_rule_file_counterexample :
    (exampleEnv (some "rules.json") true false none).readFile "rules.json" = (some [], none) ∧
    (getOptionnalMatcher (exampleEnv (some "rules.json") true false none)).res =
      .done (Matcher.nil,
        some (.wrap "Wrong rule syntax, err: " (.synErr "unexpected end of JSON input" 0))) ∧
    (getOptionnalMatcher (exampleEnv (some "rules.json") true false none)).res ≠
      .done (Matcher.nil, none) ∧
    main (exampleEnv (some "rules.json") true false none) [] [] =
      ⟨[.readFile "rules.json", .unmarshal [],
        .fatalln [.err (.wrap "Wrong rule syntax, err: "
          (.synErr "unexpected end of JSON input" 0))]], .halt (.exited 1)⟩ := by
  refine ⟨by decide, by decide, by decide, by decide⟩

/-- C5, amended: for a rule-file path naming a readable file with empty
content, `getOptionnalMatcher` returns a nil matcher and a non-nil error: the
"Wrong rule syntax, err: " error wrapping the JSON "unexpected end of JSON
input" error when the read yields an empty slice, the "Empty, no rules
provided" error when it yields a nil slice. `main` then stops with a fatal
startup error (exit status 1) and starts neither mode nor any component. -/
theorem empty_rule_file_is_fatal (w : Env) (path : String) (monIn : List (Sched MonIn))
    (infoIn : List InfoIn) (hp : w.filePath = some path) (hne : path ≠ "")
    (hempty : w.readFile path = (some [], none) ∨ w.readFile path = (none, none)) :
    ∃ err, (getOptionnalMatcher w).res = .done (Matcher.nil, some err) ∧
      (w.readFile path = (some [], none) →
        err = .wrap "Wrong rule syntax, err: " (.synErr "unexpected end of JSON input" 0)) ∧
      (w.readFile path = (none, none) →
        err = .wrapNil ("Empty, no rules provided in \"" ++ path ++ "\", err: ")) ∧
      (main w monIn infoIn).res = .halt (.exited 1) ∧
      (main w monIn infoIn).trace = (getOptionnalMatcher w).trace ++ [.fatalln [.err err]] ∧
      (main w monIn infoIn).trace.filter Act.isFatal = [.fatalln [.err err]] ∧
      (main w monIn infoIn).trace.filter Act.isModeCall = [] ∧
      (main w monIn infoIn).trace.filter Act.isComponent = [] := by
  rcases hempty with hr | hr
  · have hg := gom_parse_error w path [] [] _ hp hne hr (jsonUnmarshal_empty w)
    have hres : (getOptionnalMatcher w).res = .done (Matcher.nil,
        some (.wrap "Wrong rule syntax, err: " (.synErr "unexpected end of JSON input" 0))) := by
      rw [hg]
    refine ⟨_, hres, fun _ => rfl, ?_, main_load_failed_spec w monIn infoIn _ _ hres⟩
    intro h1
    rw [hr] at h1
    simp at h1
  · have hg := gom_nil_stream w path hp hne hr
    have hres : (getOptionnalMatcher w).res = .done (Matcher.nil,
        some (.wrapNil ("Empty, no rules provided in \"" ++ path ++ "\", err: "))) := by
      rw [hg]
    refine ⟨_, hres, ?_, fun _ => rfl, main_load_failed_spec w monIn infoIn _ _ hres⟩
    intro h1
    rw [hr] at h1
    simp at h1

theorem empty_rule_file_is_fatal_witness :
    (exampleEnv (some "rules.json") false true none).filePath = some "rules.json" ∧
    "rules.json" ≠ "" ∧
    (exampleEnv (some "rules.json") false true none).readFile "rules.json" = (some [], none) ∧
    ∃ err, (getOptionnalMatcher (exampleEnv (some "rules.json") false true none)).res
        = .done (Matcher.nil, some err) ∧
      (main (exampleEnv (some "rules.json") false true none) [] [.signals]).res
        = .halt (.exited 1) ∧
      (main (exampleEnv (some "rules.json") false true none) [] [.signals]).trace.filter
        Act.isModeCall = [] :=
  ⟨rfl, by decide, by decide,
    (empty_rule_file_is_fatal (exampleEnv (some "rules.json") false true none) "rules.json" []
      [.signals] rfl (by decide) (Or.inl (by decide))).elim
      fun err h => ⟨err, h.1, h.2.2.2.1, h.2.2.2.2.2.2.1⟩⟩

/-- C6: in monitor mode, when `conn.Connect(netlink.UdevEvent)` returns an
error, `monitor` ends in `log.Fatalln` with exit status 1 after a single
`Connect`: the run is the same whatever the channels would deliver, `Connect`
occurs once, `conn.Monitor` never, and `main` ends the same way. -/
theorem connect_failure_is_fatal (w : Env) (m : Matcher) (sched : List (Sched MonIn))
    (infoIn : List InfoIn) (e : GoError) (h : w.connectErr = some e) :
    monitor w m sched =
      ⟨[.callMonitor m, .println [.str "Monitoring UEvent kernel message to user-space..."],
        .connect, .fatalln [.str "Unable to connect to Netlink Kobject UEvent socket"]],
        .halt (.exited 1)⟩ ∧
    (monitor w m sched).trace.count .connect = 1 ∧
    (monitor w m sched).trace.filter Act.isComponent = [.connect] ∧
    (monitor w m sched).trace.filter Act.isFatal =
      [.fatalln [.str "Unable to connect to Netlink Kobject UEvent socket"]] ∧
    ((getOptionnalMatcher w).res = .done (m, none) → w.monitorMode = true →
      w.infoMode = false → (main w sched infoIn).res = .halt (.exited 1)) := by
  have hm := monitor_connect_failed w m sched e h
  refine ⟨hm, ?_, ?_, ?_, ?_⟩
  · rw [hm]; simp [List.count_cons]
  · rw [hm]; simp [Act.isComponent]
  · rw [hm]; simp [Act.isFatal]
  · intro hload hmon hinf
    rw [main_monitor_only w sched infoIn m hload hmon hinf, hm]

theorem connect_failure_is_fatal_witness :
    (exampleEnv none true false (some (.os "operation not permitted"))).connectErr
      = some (.os "operation not permitted") ∧
    monitor (exampleEnv none true false (some (.os "operation not permitted"))) Matcher.nil
      [.go, .recv (.errors (.other "x"))] =
      ⟨[.callMonitor Matcher.nil,
        .println [.str "Monitoring UEvent kernel message to user-space..."],
        .connect, .fatalln [.str "Unable to connect to Netlink Kobject UEvent socket"]],
        .halt (.exited 1)⟩ :=
  ⟨rfl,
    (connect_failure_is_fatal (exampleEnv none true false (some (.os "operation not permitted")))
      Matcher.nil [.go, .recv (.errors (.other "x"))] [] (.os "operation not permitted") rfl).1⟩

/-- C7: in monitor mode (after a successful `Connect`) the process exits only
with status 0, after a signal was received, and `cancel()` precedes
`os.Exit(0)` in the run. In info mode a signal received before any closure
makes the loop return, and the deferred `cancel()` is the last action of
`info`; whenever `info` returns, `cancel()` has run last, and `info` never
exits the process itself. So no run ends on an interrupt without `cancel()`. -/
theorem interrupt_fires_cancel (w : Env) (m : Matcher) (sched : List (Sched MonIn))
    (inp : List InfoIn) (hconn : w.connectErr = none) :
    (∀ c, (monitor w m sched).res = .halt (.exited c) →
      c = 0 ∧ Act.recvSignal ∈ (monitor w m sched).trace ∧
      ∃ pre post, (monitor w m sched).trace = pre ++ Act.cancel :: post ++ [.osExit 0]) ∧
    (∀ before after, inp = before ++ InfoIn.signals :: after →
      (∀ y ∈ before, y.isTerminal = false) →
      info m inp = ⟨infoPrologue m ++ before.flatMap InfoIn.report ++
        [.recvSignal, .println [.str "Exiting info mode..."], .cancel], .done ()⟩) ∧
    ((info m inp).res = .done () → ∃ pre, (info m inp).trace = pre ++ [.cancel]) ∧
    (∀ c, (info m inp).res ≠ .halt (.exited c)) := by
  refine ⟨?_, ?_, ?_, ?_⟩
  · intro c hc
    rw [monitor_connected w m sched hconn] at hc ⊢
    simp only at hc ⊢
    rcases (monitorLoop_spec sched).1 with hb | ⟨hb, hf, pre, hpre⟩
    · rw [hb] at hc; simp at hc
    · rw [hb] at hc
      have hc0 : c = 0 := by
        simp only [Res.halt.injEq, Halt.exited.injEq] at hc
        exact hc.symm
      have hmem : ∀ a ∈ signalActs, a ∈ (goSelect monitorSelect signalGoroutine sched).trace := by
        intro a ha
        rw [← hf] at ha
        exact (List.mem_filter.1 ha).1
      have hcancel : Act.cancel ∈ pre := by
        have h1 := hmem Act.cancel (by decide)
        rw [hpre] at h1
        simpa using h1
      obtain ⟨s1, t1, hst⟩ := List.append_of_mem hcancel
      refine ⟨hc0, List.mem_append_right _ (hmem _ (by decide)), monitorPrologue m ++ s1, t1, ?_⟩
      rw [hpre, hst]
      simp
  · intro before after hinp hb
    rw [info_eq, hinp, infoLoop_until before after .signals hb rfl]
    simp [InfoIn.farewell]
  · intro hdone
    rw [info_eq] at hdone ⊢
    simp only at hdone ⊢
    rw [hdone]
    exact ⟨_, rfl⟩
  · intro c hc
    rw [info_eq, infoLoop_eq] at hc
    simp only at hc
    split at hc <;> simp at hc

theorem interrupt_fires_cancel_witness :
    (exampleEnv none true false none).connectErr = none ∧
    (∀ c, (monitor (exampleEnv none true false none) Matcher.nil
        [.go, .go, .go, .go]).res = .halt (.exited c) →
      c = 0 ∧ Act.recvSignal ∈ (monitor (exampleEnv none true false none) Matcher.nil
        [.go, .go, .go, .go]).trace ∧
      ∃ pre post, (monitor (exampleEnv none true false none) Matcher.nil
        [.go, .go, .go, .go]).trace = pre ++ Act.cancel :: post ++ [.osExit 0]) ∧
    (monitor (exampleEnv none true false none) Matcher.nil [.go, .go, .go, .go]).res
      = .halt (.exited 0) :=
  ⟨rfl,
    (interrupt_fires_cancel (exampleEnv none true false none) Matcher.nil [.go, .go, .go, .go]
      [.signals] rfl).1, by decide⟩

/-- C8: the loop of `info`, over the sequence of things it receives, returns
exactly when that sequence holds a signal or the closure of the results
channel, and otherwise stays in its `select`. Up to the first such input every
error is logged and every device is reported once, in the order received; then
the farewell line of that input follows and nothing else. One step returns
exactly on a signal or a closure; the zero value of the closed channel is not
reported as a device. -/
theorem info_loop_spec (inp : List InfoIn) :
    ((forSelect infoSelect inp).res = .done () ↔ ∃ x ∈ inp, x.isTerminal = true) ∧
    ((forSelect infoSelect inp).res = .done () ∨
      (forSelect infoSelect inp).res = .halt .blocked) ∧
    (forSelect infoSelect inp).trace =
      (inp.takeWhile fun x => !x.isTerminal).flatMap InfoIn.report ++
        ((inp.find? InfoIn.isTerminal).map InfoIn.farewell).getD [] ∧
    reportedDevices (forSelect infoSelect inp).trace =
      (inp.takeWhile fun x => !x.isTerminal).filterMap InfoIn.device ∧
    (∀ x, (infoSelect x).res = .done .ret ↔ (x = .signals ∨ x = .queue .closed)) ∧
    (∀ x, (infoSelect x).res = .done .ret ∨ (infoSelect x).res = .done .next) ∧
    (∀ e, infoSelect (.errors e) = ⟨[.println [.str "ERROR:", .err e]], .done .next⟩) ∧
    (∀ d, infoSelect (.queue (.value d)) =
      ⟨[.println [.str "Detect device at", .str d.KObj, .str "with env", .env d.Env]],
        .done .next⟩) ∧
    infoSelect (.queue .closed) =
      ⟨[.println [.str "Finished processing existing devices"]], .done .ret⟩ := by
  refine ⟨?_, ?_, ?_, ?_, ?_, ?_, fun _ => rfl, fun _ => rfl, rfl⟩
  · rw [infoLoop_eq]
    cases h : inp.any InfoIn.isTerminal
    · simp only [Bool.false_eq_true, if_false]
      constructor
      · intro h1; simp at h1
      · rintro ⟨x, hx, hxt⟩
        have : inp.any InfoIn.isTerminal = true := List.any_eq_true.2 ⟨x, hx, hxt⟩
        rw [h] at this
        simp at this
    · simp only [if_true, true_iff]
      exact List.any_eq_true.1 h
  · rw [infoLoop_eq]
    cases inp.any InfoIn.isTerminal <;> simp
  · rw [infoLoop_eq]
  · rw [infoLoop_eq]
    simp only
    unfold reportedDevices
    rw [List.filterMap_append]
    have h1 := reported_report (inp.takeWhile fun x => !x.isTerminal)
    unfold reportedDevices at h1
    rw [h1]
    cases hf : inp.find? InfoIn.isTerminal with
    | none => simp
    | some x =>
      have h2 := reported_farewell x
      unfold reportedDevices at h2
      simp [h2]
  · intro x
    rcases x with _ | ⟨_ | _⟩ | _ <;> simp [infoSelect, Recv.commaOk, bind_eq, pure_eq, Prog.bind,
      Prog.pure, println, emit]
  · intro x
    rcases x with _ | ⟨_ | _⟩ | _ <;> simp [infoSelect, Recv.commaOk, bind_eq, pure_eq, Prog.bind,
      Prog.pure, println, emit]

/-- C9, as the code behaves: the loop of `monitor` does not tell the closure
of the results channel from a delivered event. A receive on the closed
channel yields the zero event, which is logged with "Handle" like any event;
the loop goes round again, still handles events delivered later, and is never
left. (Errors are not terminal either: each is logged and the loop goes on.) -/
theorem monitor_loop_ignores_closure :
    monitorSelect (.queue .closed) = monitorSelect (.queue (.value Zero0.zero)) ∧
    (∀ (g : List (Prog Unit)) (n : Nat) (u : UEvent),
      goSelect monitorSelect g
          (List.replicate n (.recv (.queue .closed)) ++ [.recv (.queue (.value u))]) =
        ⟨List.replicate n (.println [.str "Handle", .pretty Zero0.zero]) ++
          [.println [.str "Handle", .pretty u]], .halt .blocked⟩) ∧
    monitor (exampleEnv none true false none) Matcher.nil
        [.recv (.queue .closed), .recv (.queue .closed),
          .recv (.queue (.value ⟨"add", "/devices/foo", []⟩))] =
      ⟨monitorPrologue Matcher.nil ++
        [.println [.str "Handle", .pretty ⟨"", "", []⟩],
          .println [.str "Handle", .pretty ⟨"", "", []⟩],
          .println [.str "Handle", .pretty ⟨"add", "/devices/foo", []⟩]], .halt .blocked⟩ := by
  refine ⟨rfl, ?_, by decide⟩
  intro g n u
  have h := monitorLoop_recv_only g
    (List.replicate n (MonIn.queue .closed) ++ [MonIn.queue (.value u)])
  simp only [List.map_append, List.map_replicate, List.map_cons, List.map_nil] at h
  rw [h]
  rfl

/-- C10: after a successful `Connect`, `monitor` never returns: for every
schedule it is either still in its loop or the process has exited with status
0, and with only events, closures and errors to receive it is always still in
its loop. The run is the prologue followed by the loop and nothing after it:
`conn.Close()` never runs, `cancel()` runs at most once and only as the third
step of the signal goroutine, and an exit comes only as that goroutine's last
step, after the signal, the log line and `cancel()`. -/
theorem monitor_never_returns (w : Env) (m : Matcher) (sched : List (Sched MonIn))
    (hconn : w.connectErr = none) :
    (monitor w m sched).res ≠ .done () ∧
    ((monitor w m sched).res = .halt .blocked ∨ (monitor w m sched).res = .halt (.exited 0)) ∧
    (∀ xs : List MonIn, sched = xs.map Sched.recv →
      monitor w m sched = ⟨monitorPrologue m ++ xs.map MonIn.report, .halt .blocked⟩) ∧
    (monitor w m sched).trace =
      monitorPrologue m ++ (goSelect monitorSelect signalGoroutine sched).trace ∧
    Act.connClose ∉ (monitor w m sched).trace ∧
    (monitor w m sched).trace.count Act.cancel ≤ 1 ∧
    (monitor w m sched).trace.filter Act.isSignalAct <+: signalActs ∧
    ((monitor w m sched).res = .halt (.exited 0) →
      (monitor w m sched).trace.filter Act.isSignalAct = signalActs ∧
      ∃ pre, (monitor w m sched).trace = pre ++ [.osExit 0]) := by
  have hm := monitor_connected w m sched hconn
  obtain ⟨h1, h2, h3⟩ := monitorLoop_spec sched
  have hpro : (monitorPrologue m).filter Act.isSignalAct = [] := by
    simp [monitorPrologue, Act.isSignalAct, signalActs]
  have hfil : (monitor w m sched).trace.filter Act.isSignalAct =
      (goSelect monitorSelect signalGoroutine sched).trace.filter Act.isSignalAct := by
    rw [hm]
    simp [List.filter_append, hpro]
  refine ⟨?_, ?_, ?_, by rw [hm], ?_, ?_, by rw [hfil]; exact h2, ?_⟩
  · rw [hm]
    rcases h1 with hb | ⟨hb, _⟩ <;> simp [hb]
  · rw [hm]
    rcases h1 with hb | ⟨hb, _⟩
    · exact Or.inl hb
    · exact Or.inr hb
  · intro xs hxs
    rw [hm, hxs, monitorLoop_recv_only]
  · rw [hm]
    intro hmem
    rcases List.mem_append.1 hmem with hmem | hmem
    · simp [monitorPrologue] at hmem
    · have := h3 _ hmem
      simp [Act.isLoopAct] at this
  · have hc : (monitor w m sched).trace.count Act.cancel =
        ((monitor w m sched).trace.filter Act.isSignalAct).count Act.cancel := by
      rw [List.count_filter]
      decide
    rw [hc, hfil]
    exact le_trans (h2.sublist.count_le _) (by decide)
  · intro hex
    rw [hm] at hex
    simp only at hex
    rcases h1 with hb | ⟨_, hf, pre, hpre⟩
    · rw [hb] at hex; simp at hex
    · refine ⟨by rw [hfil]; exact hf, monitorPrologue m ++ pre, ?_⟩
      rw [hm]
      simp [hpre]

theorem monitor_never_returns_witness :
    (exampleEnv none true false none).connectErr = none ∧
    (monitor (exampleEnv none true false none) Matcher.nil
      [.recv (.errors (.other "read")), .go, .recv (.queue .closed), .go, .go, .go]).res
      ≠ .done () ∧
    (monitor (exampleEnv none true false none) Matcher.nil
      [.recv (.errors (.other "read")), .go, .recv (.queue .closed), .go, .go, .go]).res
      = .halt (.exited 0) :=
  ⟨rfl,
    (monitor_never_returns (exampleEnv none true false none) Matcher.nil
      [.recv (.errors (.other "read")), .go, .recv (.queue .closed), .go, .go, .go] rfl).1,
    by decide⟩

end GoUdev
